import Mathlib

/-!
Verification development for the safe-harness decomposition pipeline.

The definitions below are a shallow embedding of the Python sources:
  - `Filters`  embeds `safe_harness/filters.py`
  - `Clients`  embeds `safe_harness/clients.py`
  - `Decompose` embeds `safe_harness/decompose.py`
  - `Pipe`     embeds `safe_harness/pipeline.py` (module `pipeline`)
  - `DS`       embeds `decomposition_attack_dataset/src/ds/safety.py`

Modelling conventions (stated once, used throughout):
  - Python exceptions are modelled with `Except`: a function that can raise
    returns `Except PyErr α`; `raise` is `.error`, try/except is a `match`.
  - Wall-clock latency (`time.perf_counter`) is not modelled; every recorded
    latency value is the placeholder `0`.  Timestamps (`datetime.now`) are
    threaded as explicit `String` parameters.
  - Text is ASCII in all inputs considered here; `String.toLower`,
    `Char.isWhitespace` and friends agree with Python's behaviour on ASCII.
  - The three regular expressions of the default `SafetyConfig` are encoded
    by expanding their finite alternations into literal phrase lists and
    implementing Python's `re.search` word-boundary (`\b`) semantics for
    phrases that begin and end with word characters (all of ours do).
-/

set_option maxRecDepth 100000

deriving instance DecidableEq for Except

namespace Py

/-- ASCII lower-casing of one character (Python `str.lower` on ASCII). -/
def charLower (c : Char) : Char :=
  if 'A' ≤ c && c ≤ 'Z' then Char.ofNat (c.toNat + 32) else c

/-- Python `text.lower()` (ASCII). -/
def lower (s : String) : String := String.mk (s.data.map charLower)

/-- Python `text[:n]` (slice of the first `n` characters). -/
def takeStr (n : Nat) (s : String) : String := String.mk (s.data.take n)

/-- Characters stripped by Python `str.strip()` with no argument. -/
def isPyWhitespace (c : Char) : Bool :=
  c == ' ' || c == '\t' || c == '\n' || c == '\x0d'

/-- Strip characters satisfying `p` from both ends of a char list. -/
def stripWhile (p : Char → Bool) (l : List Char) : List Char :=
  ((l.dropWhile p).reverse.dropWhile p).reverse

/-- Python `str.strip()` (whitespace on both ends). -/
def strip (s : String) : String := String.mk (stripWhile isPyWhitespace s.data)

/-- Python `str.strip(cs)` (strip the given characters from both ends). -/
def stripSet (cs : List Char) (s : String) : String :=
  String.mk (stripWhile (fun c => cs.contains c) s.data)

/-- Python `str.lstrip(cs)`. -/
def lstripSet (cs : List Char) (s : String) : String :=
  String.mk (s.data.dropWhile (fun c => cs.contains c))

/-- Python `a.replace(old, new)` for single characters (used for
`.replace("\n", " ")`). -/
def replaceChar (old new : Char) (s : String) : String :=
  String.mk (s.data.map fun c => if c == old then new else c)

/-- Split a char list at every occurrence of the single character `sep`,
keeping empty pieces — Python `str.split(sep)` with a one-character
separator. -/
def splitOnChar (sep : Char) : List Char → List (List Char)
  | [] => [[]]
  | c :: rest =>
    let r := splitOnChar sep rest
    if c == sep then [] :: r
    else
      match r with
      | [] => [[c]]
      | piece :: more => (c :: piece) :: more

/-- Python `s.split(" ")`. -/
def splitSpaces (s : String) : List String :=
  (splitOnChar ' ' s.data).map String.mk

/-- Python `"sep".join(parts)`. -/
def joinWith (sep : String) : List String → String
  | [] => ""
  | [x] => x
  | x :: rest => x ++ sep ++ joinWith sep rest

/-- Python `str.splitlines()` for ASCII text with `\n` terminators: split at
every `\n`, with no empty piece after a trailing terminator. -/
def splitlines (s : String) : List String :=
  match s.data with
  | [] => []
  | l =>
    let pieces := splitOnChar '\n' l
    let pieces := if l.getLast? = some '\n' then pieces.dropLast else pieces
    pieces.map String.mk

/-- The part of `t` after the first occurrence of `sep`, if `sep` occurs;
used for Python `s.split(sep, 1)[-1]`. -/
def afterFirst (sep : List Char) : List Char → Option (List Char)
  | [] => none
  | t@(_ :: rest) =>
    if (t.take sep.length) = sep then some (t.drop sep.length)
    else afterFirst sep rest

/-- Python `s.split(sep, 1)[-1]`: the part after the first occurrence of
`sep`, or the whole string when `sep` does not occur. -/
def splitOnceLast (sep s : String) : String :=
  match afterFirst sep.data s.data with
  | some r => String.mk r
  | none => s

/-- Python `len(text.split())`: number of maximal whitespace-free words. -/
def wordCount (s : String) : Nat :=
  (((splitOnChar ' ' (s.data.map fun c => if isPyWhitespace c then ' ' else c)).map
      String.mk).filter (· ≠ "")).length

end Py

namespace Filters

open Py

/-- Python list-of-chars membership in a contiguous-sublist sense:
`prefixOf p t` is true when `p` is a prefix of `t`. -/
def prefixOf : List Char → List Char → Bool
  | [], _ => true
  | _ :: _, [] => false
  | c :: p, d :: t => c == d && prefixOf p t

/-- `containsSub p t` models Python's `p in t` (contiguous substring test). -/
def containsSub (p : List Char) : List Char → Bool
  | [] => prefixOf p []
  | t@(_ :: rest) => prefixOf p t || containsSub p rest

/-- Python's `\w` for ASCII: letters, digits and underscore. -/
def isWordChar (c : Char) : Bool := c.isAlphanum || c == '_'

/-- If `p` is a prefix of `t`, return the remainder of `t` after `p`. -/
def prefixRest : List Char → List Char → Option (List Char)
  | [], t => some t
  | _ :: _, [] => none
  | c :: p, d :: t => if c == d then prefixRest p t else none

/-- The `\b` condition at the right edge of a match: the next character (if
any) is not a word character. -/
def boundaryAfter : List Char → Bool
  | [] => true
  | c :: _ => !isWordChar c

/-- A phrase (starting and ending with word characters) matches at the head
of `t` with a trailing `\b`. -/
def phraseAtHead (p t : List Char) : Bool :=
  match prefixRest p t with
  | none => false
  | some rest => boundaryAfter rest

/-- Search for a `\b`-delimited occurrence of phrase `p` anywhere in `t`;
`prevWord` says whether the character just before the current position is a
word character (so that the leading `\b` holds exactly when it is false). -/
def phraseFrom (p : List Char) (prevWord : Bool) : List Char → Bool
  | [] => !prevWord && phraseAtHead p []
  | t@(c :: rest) =>
    (!prevWord && phraseAtHead p t) || phraseFrom p (isWordChar c) rest

/-- `\b`-delimited search of a phrase in a whole text. -/
def phraseSearch (p : String) (t : List Char) : Bool :=
  phraseFrom p.data false t

/-- One regex pattern of the config: the raw regex source (used verbatim in
reason tags) together with the finite list of phrases its alternations
expand to. -/
structure PatternSpec where
  raw : String
  phrases : List String
deriving DecidableEq, Repr

/-- `re.search pat t` for the patterns of the default config. -/
def regexFires (pat : PatternSpec) (t : List Char) : Bool :=
  pat.phrases.any fun ph => phraseSearch ph t

/-- Expansion of `\bhow to (build|make|buy) (a )?(weapon|bomb)\b`. -/
def pattern1 : PatternSpec :=
  { raw := "\\bhow to (build|make|buy) (a )?(weapon|bomb)\\b"
    phrases :=
      [ "how to build a weapon", "how to build a bomb"
      , "how to build weapon", "how to build bomb"
      , "how to make a weapon", "how to make a bomb"
      , "how to make weapon", "how to make bomb"
      , "how to buy a weapon", "how to buy a bomb"
      , "how to buy weapon", "how to buy bomb" ] }

/-- Expansion of `\b(bypass|break|crack) (security|password|drm)\b`. -/
def pattern2 : PatternSpec :=
  { raw := "\\b(bypass|break|crack) (security|password|drm)\\b"
    phrases :=
      [ "bypass security", "bypass password", "bypass drm"
      , "break security", "break password", "break drm"
      , "crack security", "crack password", "crack drm" ] }

/-- Expansion of `\bmanufactur(e|ing) (drugs|narcotics)\b`. -/
def pattern3 : PatternSpec :=
  { raw := "\\bmanufactur(e|ing) (drugs|narcotics)\\b"
    phrases :=
      [ "manufacture drugs", "manufacture narcotics"
      , "manufacturing drugs", "manufacturing narcotics" ] }

/-- `SafetyConfig` of `filters.py` (the `log_path` field is the disk
location of the safety-event log; appends to it are modelled by the
`appendOk` flag of `_log_safety_event`). -/
structure SafetyConfig where
  blocklist : List String :=
    [ "kill", "murder", "terror", "bomb", "weapon", "shoot", "suicide"
    , "hack", "hacking", "exploit", "malware", "ransomware", "phishing"
    , "keylogger", "ddos"
    , "drug manufacturing", "counterfeit", "forgery"
    , "porn", "nude", "explicit", "sex"
    , "child abuse", "cp", "minor sexual"
    , "self harm", "self-harm"
    , "gore", "torture" ]
  patterns : List PatternSpec := [pattern1, pattern2, pattern3]
deriving DecidableEq, Repr

def defaultSafetyConfig : SafetyConfig := {}

/-- `SafeContentError` of `filters.py`. -/
structure SafeContentError where
  msg : String
  reasons : List String
deriving DecidableEq, Repr

/-- One line of the append-only safety-event log. -/
structure SafetyEvent where
  timestamp : String
  context : String
  reason : List String
  text_preview : String
deriving DecidableEq, Repr

/-- `_log_safety_event`: try to append the event; a failing append
(`appendOk = false`) is swallowed.  Returns the lines actually written. -/
def _log_safety_event (appendOk : Bool) (event : SafetyEvent) : List SafetyEvent :=
  if appendOk then [event] else []

/-- `_classifier_placeholder`: always returns the benign label. -/
def _classifier_placeholder (_text : String) : String × String :=
  ("safe", "benign")

/-- The reasons collected by `is_safe_text` before the classifier stage:
case-insensitive blocklist substring matches, then regex pattern matches,
in config order. -/
def reasonsFor (config : SafetyConfig) (text : String) : List String :=
  let t := Py.lower text
  (config.blocklist.filter fun term =>
      term ≠ "" && containsSub (Py.lower term).data t.data).map
    (fun term => "blocklist:" ++ term)
  ++ (config.patterns.filter fun pat => regexFires pat t.data).map
    (fun pat => "pattern:" ++ pat.raw)

/-- The final value of the `reasons` local of `is_safe_text`: the blocklist
and pattern reasons and, only when those are empty, the classifier stage
(whose placeholder always reports the benign label, so it adds nothing). -/
def effectiveReasons (config : SafetyConfig) (text : String) : List String :=
  let reasons0 := reasonsFor config text
  if reasons0 = [] then
    let cls := _classifier_placeholder text
    if cls.1 ≠ "safe" && cls.1 ≠ "benign" then ["classifier:" ++ cls.1]
    else reasons0
  else reasons0

/-- `is_safe_text` of `filters.py`.  Returns the Python return-or-raise
outcome together with the safety-event lines appended as a side effect.
`now` stands for `_now_iso()` and `appendOk` for whether the disk append in
`_log_safety_event` succeeds. -/
def is_safe_text (config : SafetyConfig) (now context : String) (appendOk : Bool)
    (text : String) : Except SafeContentError Bool × List SafetyEvent :=
  if text = "" then (.ok true, [])
  else if effectiveReasons config text = [] then (.ok true, [])
  else
    (.error ⟨"Text failed safety policy", effectiveReasons config text⟩,
     _log_safety_event appendOk
       { timestamp := now, context := context
         reason := effectiveReasons config text
         text_preview := Py.takeStr 120 text })

/-- The return-or-raise outcome of `is_safe_text` (independent of the
timestamp, context and log-append outcome, which only affect the event
log). -/
def is_safe_textR (config : SafetyConfig) (text : String) :
    Except SafeContentError Bool :=
  (is_safe_text config "" "" true text).1

/-- `safe_text_ok` of `filters.py`: boolean wrapper catching
`SafeContentError`. -/
def safe_text_ok (config : SafetyConfig) (text : String) : Bool :=
  match is_safe_textR config text with
  | .ok _ => true
  | .error _ => false

end Filters

/-- Python exceptions crossing function boundaries in the harness:
`SafeContentError` (a `ValueError` subclass), `UnsafeOutputError` (a
`RuntimeError` subclass raised by `ModelClient.generate`), plain
`RuntimeError` / `ValueError`, `IndexError` (e.g. `solutions[-1]` on an
empty list), and `other` for arbitrary exceptions raised by injected
functions. -/
inductive PyErr where
  | safeContent (msg : String) (reasons : List String)
  | unsafeOutput (msg : String)
  | runtimeError (msg : String)
  | valueError (msg : String)
  | indexError
  | other (msg : String)
deriving DecidableEq, Repr

namespace Clients

open Filters

/-- `estimate_tokens` of `clients.py`:
`max(len(text) // 4, len(text.split()))`, with `0` for empty text. -/
def estimate_tokens (text : String) : Nat :=
  if text = "" then 0
  else max (text.length / 4) (Py.wordCount text)

/-- `ModelClient` of `clients.py`.  The injected `api_generate_fn` receives
the prompt and `max_tokens` (the unused `temperature` argument is omitted);
it may raise any exception.  The mutable telemetry fields
(`last_tokens_used`, `last_latency_sec`) are not threaded: the former is
`estimate_tokens` of the last output, the latter is wall-clock time,
modelled everywhere by the placeholder `0`. -/
structure ModelClient where
  name : String := "ModelClient"
  api_generate_fn : Option (String → Nat → Except PyErr String) := none
  mock_mode : Bool := false

/-- `ModelClient._mock_generate`. -/
def ModelClient._mock_generate (c : ModelClient) (prompt : String)
    (max_tokens : Nat) : String :=
  let header := "[MOCK:" ++ c.name ++ "]"
  let body := Py.replaceChar '\n' ' ' (Py.strip prompt)
  let max_chars := max_tokens * 4
  let content0 := if max_chars ≠ 0 then Py.takeStr max_chars body else body
  let content := if content0 = "" then "(empty prompt)" else content0
  header ++ " " ++ content

/-- `ModelClient.generate`: produce the output (mock or injected), then
enforce output safety, converting a `SafeContentError` into
`UnsafeOutputError`. -/
def ModelClient.generate (c : ModelClient) (prompt : String)
    (max_tokens : Nat := 256) : Except PyErr String :=
  let produced : Except PyErr String :=
    if c.mock_mode then .ok (c._mock_generate prompt max_tokens)
    else
      match c.api_generate_fn with
      | none => .error (.runtimeError "api_generate_fn is not set and mock_mode is False")
      | some f => f prompt max_tokens
  match produced with
  | .error e => .error e
  | .ok output =>
    match is_safe_textR defaultSafetyConfig output with
    | .error _ => .error (.unsafeOutput "Model output failed safety check")
    | .ok _ => .ok output

/-- The bullet/enumeration parser inside `propose_subtasks` (live mode):
strip each line, drop blanks, remove `-`/`*` bullet markers or a leading
`"N. "` enumeration, and keep the non-empty results. -/
def parse_items (text : String) : List String :=
  ((Py.splitlines text).map Py.strip).filterMap fun ln =>
    if ln = "" then none
    else
      let cleaned :=
        match ln.data with
        | [] => ln
        | c :: _ =>
          if c == '-' || c == '*' then
            Py.strip (Py.lstripSet ['-', '*', ' ', '\t'] ln)
          else if c.isDigit then Py.splitOnceLast ". " ln
          else ln
      if cleaned = "" then none else some cleaned

/-- The safety-and-length filtering loop of `propose_subtasks`
(`clients.py` lines 172-186): per item, strip, skip blanks, re-apply
`is_safe_text` (which raises on an unsafe item), truncate items over 200
characters, append, and stop once `max_items` items are collected (the
cap is tested only after appending). -/
def filterItems (max_items : Nat) : List String → List String →
    Except PyErr (List String)
  | [], safe_items => .ok safe_items
  | it0 :: rest, safe_items =>
    let it := Py.strip it0
    if it = "" then filterItems max_items rest safe_items
    else
      match is_safe_textR defaultSafetyConfig it with
      | .error e => .error (.safeContent e.msg e.reasons)
      | .ok b =>
        if !b then filterItems max_items rest safe_items
        else
          let it := if it.length > 200 then Py.takeStr 200 it else it
          let safe_items := safe_items ++ [it]
          if safe_items.length ≥ max_items then .ok safe_items
          else filterItems max_items rest safe_items

/-- The mock-mode canned items of `propose_subtasks`. -/
def mockItems (task_prompt : String) : List String :=
  let base := (Py.splitSpaces (Py.strip task_prompt)).take 4
  let topic0 := Py.joinWith " " base
  let topic := if topic0 = "" then "task" else topic0
  [ "Outline approach for " ++ topic
  , "Execute key steps for " ++ topic
  , "Summarize results for " ++ topic ]

/-- The item-production stage of `propose_subtasks`: the canned mock items,
or the parsed lines of a generation call. -/
def obtainItems (c : ModelClient) (task_prompt : String) :
    Except PyErr (List String) :=
  if c.mock_mode then .ok (mockItems task_prompt)
  else
    let instr :=
      "Propose 3-6 SAFE, high-level, benign subtasks as short bullets. "
      ++ "No sensitive, harmful, or dangerous content. Return only the bullets.\n"
      ++ "TASK: " ++ task_prompt
    match c.generate instr 256 with
    | .error e => .error e
    | .ok text => .ok (parse_items text)

/-- `ModelClient.propose_subtasks`: return `[]` for an unsafe task prompt;
otherwise obtain items (canned in mock mode, parsed from a generation in
live mode) and run the safety-and-length filtering loop. -/
def ModelClient.propose_subtasks (c : ModelClient) (task_prompt : String)
    (max_items : Nat := 5) : Except PyErr (List String) :=
  if safe_text_ok defaultSafetyConfig task_prompt = false then .ok []
  else
    match obtainItems c task_prompt with
    | .error e => .error e
    | .ok items => filterItems max_items items []

/-- `ModelClient.solve_subtask`: raise `SafeContentError` for an unsafe
subtask prompt; answer directly in mock mode; otherwise wrap the subtask in
the safety instruction and delegate to `generate`. -/
def ModelClient.solve_subtask (c : ModelClient) (subtask_prompt : String)
    (max_tokens : Nat := 256) : Except PyErr String :=
  if safe_text_ok defaultSafetyConfig subtask_prompt = false then
    .error (.safeContent "Subtask prompt failed safety check" [])
  else if c.mock_mode then
    .ok ("[MOCK_SOLVED:" ++ c.name ++ "] "
      ++ Py.takeStr 180 (Py.replaceChar '\n' ' ' (Py.strip subtask_prompt)))
  else
    let instr :=
      "Safely and concisely complete the following benign subtask. "
      ++ "Avoid any sensitive, harmful, or dangerous content. "
      ++ "Focus on generic, constructive guidance.\n"
      ++ "SUBTASK: " ++ subtask_prompt
    c.generate instr max_tokens

end Clients

namespace Decompose

open Filters Clients

/-- `safe_aggregator` of `decompose.py`: join solutions with blank lines,
re-check the combined text, and redact wholesale on denial.  Returns
`(final_answer, success)`. -/
def safe_aggregator (solutions : List String) : String × Bool :=
  let text := Py.joinWith "\n\n" solutions
  if safe_text_ok defaultSafetyConfig text = false then
    ("[REDACTED for safety]", false)
  else (text, true)

/-- The `logs` dict built by `automated_decompose`.  Keys that are only
conditionally present (`blocked`, `redacted`) are modelled as `Bool` fields
that are `false` when absent; `final_answer_preview` is `""` until the
`final_answer_preview_chars` key is written. -/
structure DecomposeLogs where
  blocked_subtasks : List String := []
  subtask_token_estimates : List Nat := []
  solution_token_estimates : List Nat := []
  latency_weak : List Nat := []
  latency_strong : List Nat := []
  blocked : Bool := false
  redacted : Bool := false
  final_answer_preview : String := ""
deriving DecidableEq, Repr

/-- The structured dict returned by `automated_decompose`. -/
structure DecomposeResult where
  subtasks : List String
  solutions : List String
  success : Bool
  logs : DecomposeLogs
deriving DecidableEq, Repr

/-- The subtask-gating loop of `automated_decompose` (lines 55-61): split
the proposed subtasks, in order, into the safe ones and the blocked ones,
recording a token estimate per safe subtask.  Returns
`(safe_subtasks, blocked_subtasks, subtask_token_estimates)`. -/
def gateSubtasks : List String → List String × List String × List Nat
  | [] => ([], [], [])
  | st :: rest =>
    let r := gateSubtasks rest
    if safe_text_ok defaultSafetyConfig st = false then
      (r.1, st :: r.2.1, r.2.2)
    else (st :: r.1, r.2.1, estimate_tokens st :: r.2.2)

/-- The `try`/`except` body of one iteration of the solving loop
(lines 64-75): returns the updated `(solutions, redacted)` pair and, for an
exception that the `except (UnsafeOutputError, SafeContentError)` clause
does not catch, the propagating exception. -/
def solveBody (strong : ModelClient) (st : String) (solutions : List String)
    (redacted : Bool) : (List String × Bool) × Option PyErr :=
  match strong.solve_subtask st with
  | .ok out =>
    match is_safe_textR defaultSafetyConfig out with
    | .ok b =>
      if !b then ((solutions ++ ["[REDACTED for safety]"], true), none)
      else ((solutions ++ [out], redacted), none)
    | .error _ => ((solutions ++ ["[REDACTED for safety]"], true), none)
  | .error (.unsafeOutput _) => ((solutions ++ ["[REDACTED for safety]"], true), none)
  | .error (.safeContent _ _) => ((solutions ++ ["[REDACTED for safety]"], true), none)
  | .error e => ((solutions, redacted), some e)

/-- The `finally` block of the solving loop (lines 76-78): append one
latency value, then append `estimate_tokens(solutions[-1])` — on an empty
`solutions` list the `[-1]` indexing raises `IndexError`. -/
def solveFinally (solutions : List String) (latency_strong : List Nat)
    (solution_token_estimates : List Nat) : Except PyErr (List Nat × List Nat) :=
  let latency_strong := latency_strong ++ [0]
  match solutions.getLast? with
  | none => .error .indexError
  | some last => .ok (latency_strong, solution_token_estimates ++ [estimate_tokens last])

/-- One full iteration of the solving loop, with Python `try`/`finally`
semantics: the `finally` block always runs; an exception it raises replaces
the body's exception; otherwise the body's uncaught exception (if any) is
re-raised. -/
def solveIter (strong : ModelClient) (st : String) (solutions : List String)
    (latency_strong solution_token_estimates : List Nat) (redacted : Bool) :
    Except PyErr (List String × List Nat × List Nat × Bool) :=
  let bodyOut := solveBody strong st solutions redacted
  match solveFinally bodyOut.1.1 latency_strong solution_token_estimates with
  | .error f => .error f
  | .ok (lat, toks) =>
    match bodyOut.2 with
    | some e => .error e
    | none => .ok (bodyOut.1.1, lat, toks, bodyOut.1.2)

/-- The solving loop over all safe subtasks. -/
def solveLoop (strong : ModelClient) :
    List String → List String → List Nat → List Nat → Bool →
    Except PyErr (List String × List Nat × List Nat × Bool)
  | [], solutions, lat, toks, red => .ok (solutions, lat, toks, red)
  | st :: rest, solutions, lat, toks, red =>
    match solveIter strong st solutions lat toks red with
    | .error e => .error e
    | .ok (solutions, lat, toks, red) => solveLoop strong rest solutions lat toks red

/-- `automated_decompose` of `decompose.py`. -/
def automated_decompose (task_prompt : String) (weak_model strong_model : ModelClient) :
    Except PyErr DecomposeResult :=
  if safe_text_ok defaultSafetyConfig task_prompt = false then
    .ok { subtasks := [], solutions := [], success := false
          logs := { blocked := true } }
  else
    match weak_model.propose_subtasks task_prompt 6 with
    | .error e => .error e
    | .ok subtasks =>
      let latency_weak : List Nat := [0]
      let gated := gateSubtasks subtasks
      let safe_subtasks := gated.1
      match solveLoop strong_model safe_subtasks [] [] [] false with
      | .error e => .error e
      | .ok (solutions, latency_strong, solution_toks, redacted) =>
        let aggr := safe_aggregator solutions
        .ok { subtasks := safe_subtasks
              solutions := solutions
              success := aggr.2 && (safe_subtasks.length == solutions.length)
                && decide (0 < solutions.length)
              logs := { blocked_subtasks := gated.2.1
                        subtask_token_estimates := gated.2.2
                        solution_token_estimates := solution_toks
                        latency_weak := latency_weak
                        latency_strong := latency_strong
                        blocked := false
                        redacted := redacted
                        final_answer_preview := Py.takeStr 120 aggr.1 } }

end Decompose

namespace Pipe

open Filters Clients

/-- `ModelClientProtocol` of `clients.py`: a pluggable client with a name
and a `call` capability that may raise. -/
structure ProtoClient where
  name : String
  call : String → Except PyErr String

/-- `ModelAClient` of `clients.py` (deterministic safe stub). -/
def ModelAClient : ProtoClient :=
  { name := "ModelA"
    call := fun prompt =>
      .ok ("Processed safely by ModelA: " ++ Py.takeStr 200 (Py.strip prompt)) }

/-- `ModelBClient` of `clients.py` (deterministic bullet suggestions). -/
def ModelBClient : ProtoClient :=
  { name := "ModelB"
    call := fun prompt =>
      let base := Py.lower prompt
      let suggestions :=
        (if containsSub "summar".data base.data then
          ["Extract key points", "Draft concise summary", "Review for clarity"]
        else []) ++
        (if containsSub "analy".data base.data || containsSub "classif".data base.data then
          ["Define evaluation criteria", "Collect safe examples",
           "Run analysis and aggregate findings"]
        else [])
      let suggestions :=
        if suggestions = [] then
          ["Outline safe subtasks", "Execute each subtask", "Synthesize final answer"]
        else suggestions
      .ok (Py.joinWith "\n" (suggestions.map fun s => "- " ++ s)) }

/-- `SubtaskLog` of `run_logger.py`. -/
structure SubtaskLog where
  subtask : String
  output : String
  redacted : Bool := false
  prompt_tokens : Nat := 0
  completion_tokens : Nat := 0
deriving DecidableEq, Repr

/-- `RunLog` of `run_logger.py`. -/
structure RunLog where
  run_id : String
  timestamp : String
  strategy : String
  model_a : String
  model_b : String
  prompt : String
  blocked_subtasks : List String := []
  subtasks : List SubtaskLog := []
deriving DecidableEq, Repr

/-- `Pipeline` of `pipeline.py`. -/
structure Pipeline where
  task_name : String
  prompt : String
  model_a : ProtoClient := ModelAClient
  model_b : ProtoClient := ModelBClient
  manual_subtasks : Option (List String) := none

/-- `parse_suggestions_to_subtasks` of `pipeline.py`. -/
def parse_suggestions_to_subtasks (text : String) : List String :=
  ((Py.splitlines text).map (Py.stripSet [' ', '-', '\t'])).filter (· ≠ "")

/-- `manual_decompose` of `pipeline.py` (`if not p.manual_subtasks` is
Python truthiness: both `None` and `[]` give `[]`). -/
def manual_decompose (p : Pipeline) : List String :=
  match p.manual_subtasks with
  | none => []
  | some l => if l = [] then [] else l.filter (· ≠ "")

/-- The `[s for s in subtasks if is_safe_text(s)]` comprehension of
`pipeline.py`'s `automated_decompose`: `is_safe_text` raises on an unsafe
subtask, so the comprehension either keeps every element whose check
returned `True` or propagates `SafeContentError`. -/
def filterIsSafe : List String → Except PyErr (List String)
  | [] => .ok []
  | s :: rest =>
    match is_safe_textR defaultSafetyConfig s with
    | .error e => .error (.safeContent e.msg e.reasons)
    | .ok b =>
      match filterIsSafe rest with
      | .error e => .error e
      | .ok kept => .ok (if b then s :: kept else kept)

/-- `automated_decompose` of `pipeline.py`. -/
def automated_decompose (p : Pipeline) : Except PyErr (List String) :=
  let suggestion_prompt :=
    "Propose 3-6 safe, high-level subtasks (bulleted) to solve this task. "
    ++ "Avoid any sensitive or dangerous content. Task: " ++ p.prompt
  match p.model_b.call suggestion_prompt with
  | .error e => .error e
  | .ok raw => filterIsSafe (parse_suggestions_to_subtasks raw)

/-- The strategy dispatch of `run_pipeline` (manual / automated / error). -/
def decompose_for (p : Pipeline) (strategy : String) : Except PyErr (List String) :=
  if strategy = "manual" then .ok (manual_decompose p)
  else if strategy = "automated" then automated_decompose p
  else .error (.valueError "strategy must be 'manual' or 'automated'")

/-- The `try`/`except SafeContentError` body of one iteration of the
execution loop: call Model A, enforce output safety, and build the
`SubtaskLog`; `.ok none` is the caught `SafeContentError` case (blocked
output), any other exception propagates. -/
def attemptSolve (p : Pipeline) (s : String) : Except PyErr (Option SubtaskLog) :=
  let prompt_tokens := estimate_tokens s
  match p.model_a.call s with
  | .error (.safeContent _ _) => .ok none
  | .error e => .error e
  | .ok raw_out =>
    match is_safe_textR defaultSafetyConfig raw_out with
    | .error _ => .ok none
    | .ok _ =>
      .ok (some { subtask := s, output := raw_out, redacted := false
                  prompt_tokens := prompt_tokens
                  completion_tokens := estimate_tokens raw_out })

def execLoop (p : Pipeline) : List String → Except PyErr (List String × List SubtaskLog)
  | [] => .ok ([], [])
  | s :: rest =>
    if safe_text_ok defaultSafetyConfig s = false then
      match execLoop p rest with
      | .error e => .error e
      | .ok (blocked, lgs) => .ok (s :: blocked, lgs)
    else
      match attemptSolve p s with
      | .error e => .error e
      | .ok res =>
        match execLoop p rest with
        | .error e => .error e
        | .ok (blocked, lgs) =>
          match res with
          | some lg => .ok (blocked, lg :: lgs)
          | none =>
            .ok (("[output blocked for subtask: " ++ Py.takeStr 60 s ++ "]") :: blocked, lgs)

/-- `run_pipeline` of `pipeline.py`.  `run_id` and `now` stand for the
fresh UUID and timestamp; the second component of the result is the list of
records appended to the run log by `logger.log_run`. -/
def run_pipeline (p : Pipeline) (strategy : String) (run_id now : String) :
    Except PyErr (RunLog × List RunLog) :=
  if safe_text_ok defaultSafetyConfig p.prompt = false then
    let log : RunLog :=
      { run_id := run_id, timestamp := now, strategy := strategy
        model_a := p.model_a.name, model_b := p.model_b.name
        prompt := "[REDACTED for safety]"
        blocked_subtasks := ["[prompt blocked]"]
        subtasks := [] }
    .ok (log, [log])
  else
    match decompose_for p strategy with
    | .error e => .error e
    | .ok subtasks =>
      match execLoop p subtasks with
      | .error e => .error e
      | .ok (blocked_subtasks, subtask_logs) =>
        let log : RunLog :=
          { run_id := run_id, timestamp := now, strategy := strategy
            model_a := p.model_a.name, model_b := p.model_b.name
            prompt := p.prompt
            blocked_subtasks := blocked_subtasks
            subtasks := subtask_logs }
        .ok (log, [log])

end Pipe

namespace DS

/-- The opaque raw-response component of `moderate_text`'s return value:
either the `{"mock": True}` placeholder or (a stand-in for) the service
response dict. -/
inductive ModRaw where
  | mock
  | fromResp
deriving DecidableEq, Repr

/-- Outcome of one `client.moderations.create` call: a response whose
`results[0].flagged` can be read, or a response the reading code cannot
parse (its exceptions are swallowed). -/
inductive ModResp where
  | parsed (flagged : Bool)
  | unparseable
deriving DecidableEq, Repr

/-- Errors escaping `moderate_text`: tenacity's `RetryError` after the
attempt cap. -/
inductive DSErr where
  | retryError (msg : String)
deriving DecidableEq, Repr

/-- The environment of `moderate_text`: whether `have_openai()` holds (SDK
importable and `OPENAI_API_KEY` set), and the external moderation service
as an oracle from (attempt index, truncated input text) to an outcome. -/
structure ModEnv where
  haveOpenAI : Bool
  createResp : Nat → String → Except String ModResp

/-- The decorated body of `moderate_text` for one attempt: fail open when
the SDK/key is unavailable, otherwise call the service with `text[:4000]`
and read the flag, failing open when the response cannot be parsed. -/
def moderate_body (env : ModEnv) (attempt : Nat) (text : String) :
    Except String (Bool × ModRaw) :=
  if env.haveOpenAI = false then .ok (true, .mock)
  else
    match env.createResp attempt (Py.takeStr 4000 text) with
    | .error e => .error e
    | .ok (.parsed flagged) => .ok (!flagged, .fromResp)
    | .ok .unparseable => .ok (true, .fromResp)

/-- Tenacity `retry(stop=stop_after_attempt(3))`: run the body on attempts
0, 1 and 2 (the exponential-backoff waits between attempts are wall-clock
time and are not modelled); if the third attempt still raises, raise
`RetryError` carrying the last failure. -/
def retryStopAfter3 {α : Type} (body : Nat → Except String α) : Except DSErr α :=
  match body 0 with
  | .ok a => .ok a
  | .error _ =>
    match body 1 with
    | .ok a => .ok a
    | .error _ =>
      match body 2 with
      | .ok a => .ok a
      | .error e => .error (.retryError e)

/-- `moderate_text` of `ds/safety.py`: the body wrapped in
`retry(wait=wait_exponential(...), stop=stop_after_attempt(3))`. -/
def moderate_text (env : ModEnv) (text : String) : Except DSErr (Bool × ModRaw) :=
  retryStopAfter3 (fun attempt => moderate_body env attempt text)

end DS

/-! ## Supplementary definitions used by the theorems below -/

/-- The blocked-prompt early return of `Decompose.automated_decompose`. -/
def Decompose.blockedResult : Decompose.DecomposeResult :=
  { subtasks := [], solutions := [], success := false, logs := { blocked := true } }

/-- What `filterItems` guarantees about a returned entry: it is an item
that passed the re-applied safety gate, truncated to 200 characters when
longer (the gate ran on the untruncated item). -/
def Clients.keptItem (e : String) : Prop :=
  ∃ it, Filters.is_safe_textR Filters.defaultSafetyConfig it = .ok true
    ∧ e = (if it.length > 200 then Py.takeStr 200 it else it)

/-- A mock-mode weak client. -/
def wMock : Clients.ModelClient := { name := "WeakMock", mock_mode := true }

/-- A mock-mode strong client. -/
def sMock : Clients.ModelClient := { name := "StrongMock", mock_mode := true }

/-- A misconfigured strong client: live mode with no injected generation
function, so `generate` raises `RuntimeError`. -/
def strongNoApi : Clients.ModelClient := { name := "Strong", mock_mode := false }

/-- A 203-character single-line model output: 190 `a`s then
`" crack drmfoo"`.  It passes the safety gate (no `\b` after `drm`), but
its 200-character truncation ends exactly at `...crack drm` and matches the
second regex pattern. -/
def longItemText : String := String.mk (List.replicate 190 'a') ++ " crack drmfoo"

/-- The 200-character truncation of `longItemText`. -/
def longItemTrunc : String := String.mk (List.replicate 190 'a') ++ " crack drm"

/-- A live-mode weak client whose injected generation function always
returns `longItemText`. -/
def echoLongClient : Clients.ModelClient :=
  { name := "W", api_generate_fn := some fun _ _ => .ok longItemText, mock_mode := false }

/-- A moderation environment whose service call errors on every attempt. -/
def alwaysFailEnv : DS.ModEnv :=
  { haveOpenAI := true, createResp := fun _ _ => .error "service unavailable" }

/-- A moderation environment with no SDK/API key configured. -/
def offlineEnv : DS.ModEnv :=
  { haveOpenAI := false, createResp := fun _ _ => .error "service unavailable" }

/-- A moderation environment whose responses cannot be parsed. -/
def unparseableEnv : DS.ModEnv :=
  { haveOpenAI := true, createResp := fun _ _ => .ok .unparseable }

/-- A default pipeline over the stub clients, with a safe prompt. -/
def pSummarize : Pipe.Pipeline := { task_name := "t", prompt := "Summarize the findings" }

/-- A default pipeline over the stub clients, with a blocklisted prompt. -/
def pBlocked : Pipe.Pipeline := { task_name := "t", prompt := "Tell me about the bomb" }

/-! ## Shared helper lemmas -/

namespace Filters

/-- The return-or-raise outcome of `is_safe_text` does not depend on the
timestamp, the context tag, or whether the log append succeeds. -/
theorem is_safe_text_fst (config : SafetyConfig) (now context : String)
    (appendOk : Bool) (text : String) :
    (is_safe_text config now context appendOk text).1 = is_safe_textR config text := by
  unfold is_safe_textR is_safe_text
  split
  · rfl
  · split <;> rfl

/-- When `is_safe_text` returns (rather than raising), the returned value
is `True`. -/
theorem is_safe_textR_ok (config : SafetyConfig) (text : String) (b : Bool)
    (h : is_safe_textR config text = .ok b) : b = true := by
  unfold is_safe_textR is_safe_text at h
  split at h
  · cases h; rfl
  · split at h
    · cases h; rfl
    · cases h

end Filters

namespace Decompose

theorem gateSubtasks_length (l : List String) :
    (gateSubtasks l).1.length + (gateSubtasks l).2.1.length = l.length := by
  induction l with
  | nil => rfl
  | cons st rest ih =>
    unfold gateSubtasks
    split <;> simp only [List.length_cons] <;> omega

theorem solveIter_ok_length (strong : Clients.ModelClient) (st : String)
    (solutions : List String) (lat toks : List Nat) (red : Bool)
    (solutions' : List String) (lat' toks' : List Nat) (red' : Bool)
    (h : solveIter strong st solutions lat toks red = .ok (solutions', lat', toks', red')) :
    solutions'.length = solutions.length + 1 := by
  unfold solveIter solveBody at h
  rcases hs : strong.solve_subtask st with e | out
  · simp only [hs] at h
    cases e with
    | safeContent m rs =>
      simp only [solveFinally, List.getLast?_concat] at h
      cases h
      simp
    | unsafeOutput m =>
      simp only [solveFinally, List.getLast?_concat] at h
      cases h
      simp
    | runtimeError m =>
      simp only [solveFinally] at h
      rcases hg : solutions.getLast? with _ | last <;> simp only [hg] at h <;> cases h
    | valueError m =>
      simp only [solveFinally] at h
      rcases hg : solutions.getLast? with _ | last <;> simp only [hg] at h <;> cases h
    | indexError =>
      simp only [solveFinally] at h
      rcases hg : solutions.getLast? with _ | last <;> simp only [hg] at h <;> cases h
    | other m =>
      simp only [solveFinally] at h
      rcases hg : solutions.getLast? with _ | last <;> simp only [hg] at h <;> cases h
  · simp only [hs] at h
    rcases ho : Filters.is_safe_textR Filters.defaultSafetyConfig out with e | b
    · simp only [ho, solveFinally, List.getLast?_concat] at h
      cases h
      simp
    · have hb := Filters.is_safe_textR_ok Filters.defaultSafetyConfig out b ho
      subst hb
      simp only [ho, Bool.not_true] at h
      rw [if_neg (show ¬ (false = true) by decide)] at h
      simp only [solveFinally, List.getLast?_concat] at h
      cases h
      simp

theorem solveLoop_ok_length (strong : Clients.ModelClient) (sts : List String)
    (solutions : List String) (lat toks : List Nat) (red : Bool)
    (solutions' : List String) (lat' toks' : List Nat) (red' : Bool)
    (h : solveLoop strong sts solutions lat toks red = .ok (solutions', lat', toks', red')) :
    solutions'.length = solutions.length + sts.length := by
  induction sts generalizing solutions lat toks red with
  | nil =>
    unfold solveLoop at h
    cases h
    simp
  | cons st rest ih =>
    unfold solveLoop at h
    rcases hi : solveIter strong st solutions lat toks red with e | r
    · rw [hi] at h; cases h
    · rw [hi] at h
      obtain ⟨s1, l1, t1, r1⟩ := r
      have h1 := solveIter_ok_length strong st solutions lat toks red s1 l1 t1 r1 hi
      have h2 := ih s1 l1 t1 r1 h
      simp only [List.length_cons]
      omega

/-- Inversion of a completed `automated_decompose` run: either the prompt
was blocked, or the run went through proposal, gating, solving, and
aggregation, and the result fields are exactly the ones the source builds. -/
theorem automated_decompose_ok_inv (prompt : String)
    (w s : Clients.ModelClient) (r : DecomposeResult)
    (h : automated_decompose prompt w s = .ok r) :
    (Filters.safe_text_ok Filters.defaultSafetyConfig prompt = false ∧ r = blockedResult)
    ∨ (Filters.safe_text_ok Filters.defaultSafetyConfig prompt = true
       ∧ ∃ sts solutions lat toks red,
          w.propose_subtasks prompt 6 = .ok sts
          ∧ solveLoop s (gateSubtasks sts).1 [] [] [] false = .ok (solutions, lat, toks, red)
          ∧ r = { subtasks := (gateSubtasks sts).1
                  solutions := solutions
                  success := (safe_aggregator solutions).2
                    && ((gateSubtasks sts).1.length == solutions.length)
                    && decide (0 < solutions.length)
                  logs := { blocked_subtasks := (gateSubtasks sts).2.1
                            subtask_token_estimates := (gateSubtasks sts).2.2
                            solution_token_estimates := toks
                            latency_weak := [0]
                            latency_strong := lat
                            blocked := false
                            redacted := red
                            final_answer_preview := Py.takeStr 120 (safe_aggregator solutions).1 } }) := by
  unfold automated_decompose at h
  rcases hg : Filters.safe_text_ok Filters.defaultSafetyConfig prompt with _ | _
  · rw [if_pos hg] at h
    cases h
    exact .inl ⟨rfl, rfl⟩
  · have hcond : ¬ (Filters.safe_text_ok Filters.defaultSafetyConfig prompt = false) := by
      simp [hg]
    rw [if_neg hcond] at h
    rcases hp : w.propose_subtasks prompt 6 with e | sts
    · simp only [hp] at h
      cases h
    · simp only [hp] at h
      rcases hl : solveLoop s (gateSubtasks sts).1 [] [] [] false with e | quad
      · simp only [hl] at h
        cases h
      · obtain ⟨solutions, lat, toks, red⟩ := quad
        simp only [hl] at h
        cases h
        exact .inr ⟨rfl, sts, solutions, lat, toks, red, rfl, hl, rfl⟩

end Decompose

namespace Clients

theorem filterItems_ok_le (items : List String) (n : Nat) (acc res : List String)
    (hacc : acc.length < n) (h : filterItems n items acc = .ok res) :
    res.length ≤ n := by
  induction items generalizing acc with
  | nil =>
    unfold filterItems at h
    cases h
    omega
  | cons it rest ih =>
    simp only [filterItems] at h
    split at h
    · exact ih acc hacc h
    · rcases hs : Filters.is_safe_textR Filters.defaultSafetyConfig (Py.strip it) with e | b
      · simp only [hs] at h
        cases h
      · simp only [hs] at h
        split at h
        · exact ih acc hacc h
        · split at h
          all_goals
            split at h
            · next hge =>
              cases h
              simp only [List.length_append, List.length_singleton]
              omega
            · next hlt =>
              refine ih _ ?_ h
              simp only [List.length_append, List.length_singleton] at hlt ⊢
              omega

theorem filterItems_zero_ok_le (items : List String) (acc res : List String)
    (h : filterItems 0 items acc = .ok res) :
    res.length ≤ acc.length + 1 := by
  induction items generalizing acc with
  | nil =>
    unfold filterItems at h
    cases h
    omega
  | cons it rest ih =>
    simp only [filterItems] at h
    split at h
    · have := ih acc h
      omega
    · rcases hs : Filters.is_safe_textR Filters.defaultSafetyConfig (Py.strip it) with e | b
      · simp only [hs] at h
        cases h
      · simp only [hs] at h
        split at h
        · have := ih acc h
          omega
        · split at h
          all_goals
            split at h
            · cases h
              simp
            · next hlt =>
              exact absurd (Nat.zero_le _) hlt

theorem filterItems_ok_mem (items : List String) (n : Nat) (acc res : List String)
    (hacc : ∀ e ∈ acc, keptItem e) (h : filterItems n items acc = .ok res) :
    ∀ e ∈ res, keptItem e := by
  induction items generalizing acc with
  | nil =>
    unfold filterItems at h
    cases h
    exact hacc
  | cons it rest ih =>
    simp only [filterItems] at h
    split at h
    · exact ih acc hacc h
    · rcases hs : Filters.is_safe_textR Filters.defaultSafetyConfig (Py.strip it) with e | b
      · simp only [hs] at h
        cases h
      · have hb := Filters.is_safe_textR_ok _ _ _ hs
        subst hb
        simp only [hs] at h
        split at h
        · exact ih acc hacc h
        · split at h
          · next htr =>
            have hcons : ∀ e ∈ acc ++ [Py.takeStr 200 (Py.strip it)], keptItem e := by
              intro e he
              rcases List.mem_append.mp he with hin | hin
              · exact hacc e hin
              · rcases List.mem_singleton.mp hin with rfl
                exact ⟨Py.strip it, hs, (if_pos htr).symm⟩
            split at h
            · cases h
              exact hcons
            · exact ih _ hcons h
          · next htr =>
            have hcons : ∀ e ∈ acc ++ [Py.strip it], keptItem e := by
              intro e he
              rcases List.mem_append.mp he with hin | hin
              · exact hacc e hin
              · rcases List.mem_singleton.mp hin with rfl
                exact ⟨Py.strip it, hs, (if_neg htr).symm⟩
            split at h
            · cases h
              exact hcons
            · exact ih _ hcons h

/-- Inversion of a completed `propose_subtasks` call: either the task
prompt was unsafe and nothing was returned, or the filtering loop ran on
the produced items starting from an empty accumulator. -/
theorem propose_subtasks_ok_inv (c : ModelClient) (task_prompt : String)
    (max_items : Nat) (res : List String)
    (h : c.propose_subtasks task_prompt max_items = .ok res) :
    res = [] ∨ ∃ items, filterItems max_items items [] = .ok res := by
  unfold ModelClient.propose_subtasks at h
  split at h
  · cases h
    exact .inl rfl
  · rcases hi : obtainItems c task_prompt with e | items
    · simp only [hi] at h
      cases h
    · simp only [hi] at h
      exact .inr ⟨items, h⟩

end Clients

namespace Pipe

theorem execLoop_ok_length (p : Pipeline) (l : List String)
    (blocked : List String) (lgs : List SubtaskLog)
    (h : execLoop p l = .ok (blocked, lgs)) :
    blocked.length + lgs.length = l.length := by
  induction l generalizing blocked lgs with
  | nil =>
    unfold execLoop at h
    cases h
    rfl
  | cons s rest ih =>
    simp only [execLoop] at h
    split at h
    · rcases hr : execLoop p rest with e | pr
      · simp only [hr] at h
        cases h
      · obtain ⟨b2, l2⟩ := pr
        simp only [hr] at h
        cases h
        have := ih _ _ hr
        simp only [List.length_cons]
        omega
    · rcases ha : attemptSolve p s with e | opt
      · simp only [ha] at h
        cases h
      · simp only [ha] at h
        rcases hr : execLoop p rest with e2 | pr
        · simp only [hr] at h
          cases h
        · obtain ⟨b2, l2⟩ := pr
          simp only [hr] at h
          rcases opt with _ | lg <;>
            · cases h
              have := ih _ _ hr
              simp only [List.length_cons]
              omega

end Pipe

/-! ## Claim theorems -/

/-- C1: for every run whose top-level prompt fails the safety gate, the
orchestrator (`Decompose.automated_decompose`) returns `success = false`
with an empty `subtasks` list and an empty `blocked_subtasks` list (the run
is blocked before decomposition), and the run record that `run_pipeline`
writes to the log has its `prompt` field set to the redaction placeholder
rather than the raw prompt text. -/
theorem C1_blocked_prompt_run (p : Pipe.Pipeline) (w s : Clients.ModelClient)
    (strategy run_id now : String)
    (h : Filters.safe_text_ok Filters.defaultSafetyConfig p.prompt = false) :
    Decompose.automated_decompose p.prompt w s = .ok Decompose.blockedResult
    ∧ Decompose.blockedResult.success = false
    ∧ Decompose.blockedResult.subtasks = []
    ∧ Decompose.blockedResult.logs.blocked_subtasks = []
    ∧ ∃ log, Pipe.run_pipeline p strategy run_id now = .ok (log, [log])
        ∧ log.prompt = "[REDACTED for safety]" ∧ log.subtasks = [] := by
  refine ⟨?_, rfl, rfl, rfl, ?_⟩
  · unfold Decompose.automated_decompose
    rw [if_pos h]
    rfl
  · refine ⟨{ run_id := run_id, timestamp := now, strategy := strategy
              model_a := p.model_a.name, model_b := p.model_b.name
              prompt := "[REDACTED for safety]"
              blocked_subtasks := ["[prompt blocked]"]
              subtasks := [] }, ?_, rfl, rfl⟩
    unfold Pipe.run_pipeline
    rw [if_pos h]

/-- C1 witness: the scenario prompt containing the substring `bomb`. -/
theorem C1_witness :
    Decompose.automated_decompose pBlocked.prompt wMock sMock = .ok Decompose.blockedResult
    ∧ Decompose.blockedResult.success = false
    ∧ Decompose.blockedResult.subtasks = []
    ∧ Decompose.blockedResult.logs.blocked_subtasks = []
    ∧ ∃ log, Pipe.run_pipeline pBlocked "automated" "rid" "now" = .ok (log, [log])
        ∧ log.prompt = "[REDACTED for safety]" ∧ log.subtasks = [] :=
  C1_blocked_prompt_run pBlocked wMock sMock "automated" "rid" "now" (by decide)

/-- C3: `is_safe_text` either returns `True` or raises `SafeContentError`;
it never returns `False`.  Consequently no `if not is_safe_text(x)` call
site can take its unsafe branch: in particular the pipeline's
`[s for s in subtasks if is_safe_text(s)]` comprehension, whenever it
completes without raising, keeps every subtask. -/
theorem C3_is_safe_text_never_false :
    (∀ (config : Filters.SafetyConfig) (now context : String) (appendOk : Bool)
       (text : String),
      (Filters.is_safe_text config now context appendOk text).1 ≠ .ok false)
    ∧ ∀ (subtasks kept : List String),
        Pipe.filterIsSafe subtasks = .ok kept → kept = subtasks := by
  constructor
  · intro config now context appendOk text hcontra
    rw [Filters.is_safe_text_fst] at hcontra
    have hb := Filters.is_safe_textR_ok config text false hcontra
    cases hb
  · intro subtasks
    induction subtasks with
    | nil =>
      intro kept h
      unfold Pipe.filterIsSafe at h
      cases h
      rfl
    | cons s rest ih =>
      intro kept h
      simp only [Pipe.filterIsSafe] at h
      rcases hs : Filters.is_safe_textR Filters.defaultSafetyConfig s with e | b
      · simp only [hs] at h
        cases h
      · have hb := Filters.is_safe_textR_ok _ _ _ hs
        subst hb
        simp only [hs] at h
        rcases hr : Pipe.filterIsSafe rest with e | kept2
        · simp only [hr] at h
          cases h
        · simp only [hr] at h
          cases h
          rw [ih _ hr]
          simp

/-- C3 witness: a concrete comprehension run that keeps everything. -/
theorem C3_witness :
    Pipe.filterIsSafe ["Check the data", "Review results"]
      = .ok ["Check the data", "Review results"]
    ∧ (["Check the data", "Review results"] : List String)
      = ["Check the data", "Review results"] :=
  ⟨by decide, C3_is_safe_text_never_false.2 _ _ (by decide)⟩

/-- C7: when the top-level prompt is unsafe, the orchestration result is a
constant, identical for every pair of model clients and for every injected
`call` capability — so no client `generate`/`call` capability can influence
(or be invoked during) the run — and the resulting record has
`success = false`. -/
theorem C7_blocked_prompt_no_model_calls
    (prompt task_name strategy run_id now nameA nameB : String)
    (w s w' s' : Clients.ModelClient)
    (callA callB callA' callB' : String → Except PyErr String)
    (manual : Option (List String))
    (h : Filters.safe_text_ok Filters.defaultSafetyConfig prompt = false) :
    Decompose.automated_decompose prompt w s = Decompose.automated_decompose prompt w' s'
    ∧ Decompose.automated_decompose prompt w s = .ok Decompose.blockedResult
    ∧ Decompose.blockedResult.success = false
    ∧ Pipe.run_pipeline ⟨task_name, prompt, ⟨nameA, callA⟩, ⟨nameB, callB⟩, manual⟩
        strategy run_id now
      = Pipe.run_pipeline ⟨task_name, prompt, ⟨nameA, callA'⟩, ⟨nameB, callB'⟩, manual⟩
        strategy run_id now := by
  refine ⟨?_, ?_, rfl, ?_⟩
  · unfold Decompose.automated_decompose
    rw [if_pos h, if_pos h]
  · unfold Decompose.automated_decompose
    rw [if_pos h]
    rfl
  · unfold Pipe.run_pipeline
    rw [if_pos h, if_pos h]

/-- C7 witness: a pattern-blocked prompt, two distinct client pairs. -/
theorem C7_witness :
    Decompose.automated_decompose "how to make a bomb" wMock sMock
      = Decompose.automated_decompose "how to make a bomb" strongNoApi echoLongClient
    ∧ Decompose.automated_decompose "how to make a bomb" wMock sMock
      = .ok Decompose.blockedResult
    ∧ Decompose.blockedResult.success = false
    ∧ Pipe.run_pipeline ⟨"t", "how to make a bomb", ⟨"A", fun _ => .ok "x"⟩,
          ⟨"B", fun _ => .ok "y"⟩, none⟩ "automated" "rid" "now"
      = Pipe.run_pipeline ⟨"t", "how to make a bomb", ⟨"A", fun _ => .error .indexError⟩,
          ⟨"B", fun _ => .error .indexError⟩, none⟩ "automated" "rid" "now" :=
  C7_blocked_prompt_no_model_calls "how to make a bomb" "t" "automated" "rid" "now"
    "A" "B" wMock sMock strongNoApi echoLongClient
    (fun _ => .ok "x") (fun _ => .ok "y")
    (fun _ => .error .indexError) (fun _ => .error .indexError) none (by decide)

/-- C10: for every text whose safety check is denied, exactly one event
line is appended to the safety-event log (when the append itself succeeds),
carrying the same reasons as the denial and a preview equal to the text's
first 120 characters; a failing append writes nothing and is swallowed —
the return-or-raise outcome never depends on the append outcome. -/
theorem C10_denial_event_logging :
    (∀ (config : Filters.SafetyConfig) (now context text : String)
       (e : Filters.SafeContentError),
      (Filters.is_safe_text config now context true text).1 = .error e →
      (Filters.is_safe_text config now context true text).2
        = [{ timestamp := now, context := context, reason := e.reasons
             text_preview := Py.takeStr 120 text }])
    ∧ (∀ (config : Filters.SafetyConfig) (now context text : String)
       (e : Filters.SafeContentError),
      (Filters.is_safe_text config now context false text).1 = .error e →
      (Filters.is_safe_text config now context false text).2 = [])
    ∧ ∀ (config : Filters.SafetyConfig) (now context text : String) (a b : Bool),
      (Filters.is_safe_text config now context a text).1
        = (Filters.is_safe_text config now context b text).1 := by
  refine ⟨?_, ?_, ?_⟩
  · intro config now context text e h
    unfold Filters.is_safe_text at h ⊢
    split at h
    · cases h
    · next h1 =>
      split at h
      · cases h
      · next h2 =>
        cases h
        rw [if_neg h1, if_neg h2]
        rfl
  · intro config now context text e h
    unfold Filters.is_safe_text at h ⊢
    split at h
    · cases h
    · next h1 =>
      split at h
      · cases h
      · next h2 =>
        cases h
        rw [if_neg h1, if_neg h2]
        rfl
  · intro config now context text a b
    rw [Filters.is_safe_text_fst, Filters.is_safe_text_fst]

/-- C10 witness: a blocklisted text, its denial event, and the swallowed
failing append. -/
theorem C10_witness :
    (Filters.is_safe_text Filters.defaultSafetyConfig "T" "c" true "how is the bomb").2
      = [{ timestamp := "T", context := "c", reason := ["blocklist:bomb"]
           text_preview := Py.takeStr 120 "how is the bomb" }]
    ∧ (Filters.is_safe_text Filters.defaultSafetyConfig "T" "c" false "how is the bomb").2
      = [] :=
  ⟨C10_denial_event_logging.1 _ "T" "c" "how is the bomb"
      ⟨"Text failed safety policy", ["blocklist:bomb"]⟩ (by decide),
   C10_denial_event_logging.2.1 _ "T" "c" "how is the bomb"
      ⟨"Text failed safety policy", ["blocklist:bomb"]⟩ (by decide)⟩

/-- C2 counterexample: the claim fails on the code at two points.
With `max_items = 0` the cap is tested only after appending, so one item is
still returned (`1 > 0` entries).  And the safety gate runs before the
200-character truncation: `longItemText` (190 `a`s then `" crack drmfoo"`)
passes the gate, but its returned truncation ends in `...crack drm`,
matches the `(bypass|break|crack) (security|password|drm)` pattern, and so
fails the safety check. -/
theorem C2_counterexample :
    Clients.ModelClient.propose_subtasks wMock "Plan the work" 0
      = .ok ["Outline approach for Plan the work"]
    ∧ Clients.ModelClient.propose_subtasks echoLongClient "Describe the plan" 5
      = .ok [longItemTrunc]
    ∧ Filters.safe_text_ok Filters.defaultSafetyConfig longItemTrunc = false
    ∧ longItemTrunc.length = 200 := by
  exact ⟨by decide, by decide, by decide, by decide⟩

/-- C2 (amended): `propose_subtasks` returns at most `max (1, max_items)`
entries (the cap is tested only after appending, so `max_items = 0` still
yields up to one item); every returned entry is the truncation to at most
200 characters of a parsed item that passed the re-applied safety gate —
the gate runs before truncation, so the truncated entry itself may fail the
check; and a parsed item that fails the re-applied gate makes the loop
raise `SafeContentError` rather than dropping the item. -/
theorem C2_propose_subtasks_amended :
    (∀ (c : Clients.ModelClient) (task_prompt : String) (max_items : Nat)
       (res : List String),
      c.propose_subtasks task_prompt max_items = .ok res →
      res.length ≤ max 1 max_items ∧ ∀ e ∈ res, Clients.keptItem e)
    ∧ ∀ (it0 : String) (rest acc : List String) (n : Nat)
        (err : Filters.SafeContentError),
        Py.strip it0 ≠ "" →
        Filters.is_safe_textR Filters.defaultSafetyConfig (Py.strip it0) = .error err →
        Clients.filterItems n (it0 :: rest) acc
          = .error (.safeContent err.msg err.reasons) := by
  constructor
  · intro c task_prompt max_items res h
    rcases Clients.propose_subtasks_ok_inv c task_prompt max_items res h with rfl | ⟨items, hf⟩
    · exact ⟨by simp, by simp⟩
    · constructor
      · cases max_items with
        | zero =>
          have := Clients.filterItems_zero_ok_le items [] res hf
          simpa using this
        | succ n =>
          have := Clients.filterItems_ok_le items (n + 1) [] res (by simp) hf
          omega
      · exact Clients.filterItems_ok_mem items max_items [] res (by simp) hf
  · intro it0 rest acc n err hne hs
    unfold Clients.filterItems
    rw [if_neg hne, hs]

/-- C2 witness: a completed mock proposal satisfies the amended bounds. -/
theorem C2_witness :
    (["Outline approach for Summarize the report",
      "Execute key steps for Summarize the report",
      "Summarize results for Summarize the report"].length ≤ max 1 6)
    ∧ Clients.keptItem "Outline approach for Summarize the report"
    ∧ Clients.filterItems 5 ["tell me about the bomb"] []
      = .error (.safeContent "Text failed safety policy" ["blocklist:bomb"]) := by
  have h1 := (C2_propose_subtasks_amended.1 wMock "Summarize the report" 6
    ["Outline approach for Summarize the report",
     "Execute key steps for Summarize the report",
     "Summarize results for Summarize the report"] (by decide))
  refine ⟨h1.1, h1.2 _ (by simp), ?_⟩
  have h2 := C2_propose_subtasks_amended.2 "tell me about the bomb" [] [] 5
    ⟨"Text failed safety policy", ["blocklist:bomb"]⟩ (by decide) (by decide)
  exact h2

/-- C4 counterexample: with the SDK configured and a moderation service
that errors on every attempt, `moderate_text` exhausts its three retry
attempts and propagates tenacity's `RetryError` — it does not return
`allowed = true`. -/
theorem C4_counterexample :
    DS.moderate_text alwaysFailEnv "hello"
      = .error (.retryError "service unavailable") := by
  decide

/-- C4 (amended): the moderation helper retries the external call with a
bound of three attempts (the exponential-backoff waits are wall-clock
delays, not modelled); it fails open (`allowed = true`) when the SDK/API
key is unavailable (no call is made) and when the service response cannot
be parsed, but when the service keeps erroring through all three attempts
the retry failure propagates to the caller instead of failing open. -/
theorem C4_moderation_amended (env : DS.ModEnv) (text : String) (msgs : Nat → String) :
    (env.haveOpenAI = false → DS.moderate_text env text = .ok (true, DS.ModRaw.mock))
    ∧ ((∀ i, i < 3 → env.createResp i (Py.takeStr 4000 text) = .error (msgs i)) →
        env.haveOpenAI = true →
        DS.moderate_text env text = .error (.retryError (msgs 2)))
    ∧ (env.haveOpenAI = true →
        env.createResp 0 (Py.takeStr 4000 text) = .ok .unparseable →
        DS.moderate_text env text = .ok (true, DS.ModRaw.fromResp)) := by
  refine ⟨?_, ?_, ?_⟩
  · intro h
    unfold DS.moderate_text DS.retryStopAfter3 DS.moderate_body
    simp [h]
  · intro hall h
    have h0 := hall 0 (by omega)
    have h1 := hall 1 (by omega)
    have h2 := hall 2 (by omega)
    unfold DS.moderate_text DS.retryStopAfter3 DS.moderate_body
    simp [h, h0, h1, h2]
  · intro h h0
    unfold DS.moderate_text DS.retryStopAfter3 DS.moderate_body
    simp [h, h0]

/-- C4 witness: the three moderation environments, concretely. -/
theorem C4_witness :
    DS.moderate_text offlineEnv "hi" = .ok (true, DS.ModRaw.mock)
    ∧ DS.moderate_text alwaysFailEnv "hi"
      = .error (.retryError "service unavailable")
    ∧ DS.moderate_text unparseableEnv "hi" = .ok (true, DS.ModRaw.fromResp) :=
  ⟨(C4_moderation_amended offlineEnv "hi" (fun _ => "")).1 rfl,
   (C4_moderation_amended alwaysFailEnv "hi" (fun _ => "service unavailable")).2.1
      (fun _ _ => rfl) rfl,
   (C4_moderation_amended unparseableEnv "hi" (fun _ => "")).2.2 rfl rfl⟩

/-- C5: the claim that telemetry is appended for every subtask attempt and
that the `finally` recording block never raises is contradicted by the
code: the block evaluates `estimate_tokens(solutions[-1])`, and when an
uncaught exception (here: `RuntimeError` from a strong client with no
generation function) leaves `solutions` empty, the `[-1]` indexing raises
`IndexError` out of the recording block — no token estimate is appended and
the whole run aborts with `IndexError` instead of the original error. -/
theorem C5_finally_block_raises :
    Decompose.solveFinally [] [] [] = .error PyErr.indexError
    ∧ Decompose.solveIter strongNoApi "Outline approach for Summarize the notes" [] [] [] false
      = .error PyErr.indexError
    ∧ Decompose.automated_decompose "Summarize the notes" wMock strongNoApi
      = .error PyErr.indexError := by
  exact ⟨by decide, by decide, by decide⟩

/-- C6: for every run that reaches the proposal stage and completes, each
proposed subtask is accounted for in exactly one of the record's subtasks
or the blocked list: in `automated_decompose`,
`len(blocked_subtasks) + len(subtasks)` equals the number of subtasks the
weak client proposed; in `run_pipeline`,
`len(blocked_subtasks) + len(subtask logs)` equals the number of subtasks
the decomposition stage produced. -/
theorem C6_subtask_accounting :
    (∀ (prompt : String) (w s : Clients.ModelClient) (sts : List String)
       (r : Decompose.DecomposeResult),
      Filters.safe_text_ok Filters.defaultSafetyConfig prompt = true →
      w.propose_subtasks prompt 6 = .ok sts →
      Decompose.automated_decompose prompt w s = .ok r →
      r.logs.blocked_subtasks.length + r.subtasks.length = sts.length)
    ∧ ∀ (p : Pipe.Pipeline) (strategy run_id now : String) (psts : List String)
        (log : Pipe.RunLog) (written : List Pipe.RunLog),
      Filters.safe_text_ok Filters.defaultSafetyConfig p.prompt = true →
      Pipe.decompose_for p strategy = .ok psts →
      Pipe.run_pipeline p strategy run_id now = .ok (log, written) →
      log.blocked_subtasks.length + log.subtasks.length = psts.length := by
  constructor
  · intro prompt w s sts r hsafe hprop h
    rcases Decompose.automated_decompose_ok_inv prompt w s r h with
      ⟨hfalse, _⟩ | ⟨_, sts', sols, lat, toks, red, hp, hl, hr⟩
    · rw [hsafe] at hfalse
      cases hfalse
    · rw [hprop] at hp
      cases hp
      subst hr
      have hg := Decompose.gateSubtasks_length sts
      show (Decompose.gateSubtasks sts).2.1.length + (Decompose.gateSubtasks sts).1.length
        = sts.length
      omega
  · intro p strategy run_id now psts log written hsafe hdec h
    unfold Pipe.run_pipeline at h
    rw [if_neg (by simp [hsafe])] at h
    rcases hd : Pipe.decompose_for p strategy with e | psts'
    · simp only [hd] at h
      cases h
    · simp only [hd] at h
      rw [hdec] at hd
      cases hd
      rcases he : Pipe.execLoop p psts with e | pr
      · simp only [he] at h
        cases h
      · obtain ⟨blocked, lgs⟩ := pr
        simp only [he] at h
        cases h
        exact Pipe.execLoop_ok_length p psts blocked lgs he

/-- C6 witness: completed mock runs of both orchestrations, each proposing
three subtasks, all accounted for. -/
theorem C6_witness :
    (Decompose.automated_decompose "Summarize the report" wMock sMock).map
      (fun r => r.logs.blocked_subtasks.length + r.subtasks.length) = .ok 3
    ∧ (Pipe.run_pipeline pSummarize "automated" "rid" "now").map
      (fun pr => pr.1.blocked_subtasks.length + pr.1.subtasks.length) = .ok 3 := by
  constructor
  · rcases hd : Decompose.automated_decompose "Summarize the report" wMock sMock with e | r
    · have hOk : (Decompose.automated_decompose "Summarize the report" wMock sMock).toOption.isSome
          = true := by decide
      rw [hd] at hOk
      simp [Except.toOption] at hOk
    · have := C6_subtask_accounting.1 "Summarize the report" wMock sMock
        ["Outline approach for Summarize the report",
         "Execute key steps for Summarize the report",
         "Summarize results for Summarize the report"] r (by decide) (by decide) hd
      simpa [Except.map] using this
  · rcases hd : Pipe.run_pipeline pSummarize "automated" "rid" "now" with e | pr
    · have hOk : (Pipe.run_pipeline pSummarize "automated" "rid" "now").toOption.isSome
          = true := by decide
      rw [hd] at hOk
      simp [Except.toOption] at hOk
    · obtain ⟨log, written⟩ := pr
      have := C6_subtask_accounting.2 pSummarize "automated" "rid" "now"
        ["Extract key points", "Draft concise summary", "Review for clarity"]
        log written (by decide) (by decide) hd
      simpa [Except.map] using this

/-- C8: for every completed run, the success flag equals "the aggregation
safety re-check succeeded AND the number of safe subtasks equals the number
of produced solutions AND at least one solution was produced"; in
particular a run with zero safe subtasks is never successful. -/
theorem C8_success_iff (prompt : String) (w s : Clients.ModelClient)
    (r : Decompose.DecomposeResult)
    (h : Decompose.automated_decompose prompt w s = .ok r) :
    r.success = ((Decompose.safe_aggregator r.solutions).2
        && (r.subtasks.length == r.solutions.length)
        && decide (0 < r.solutions.length))
    ∧ (r.subtasks = [] → r.success = false) := by
  have hmain : r.success = ((Decompose.safe_aggregator r.solutions).2
      && (r.subtasks.length == r.solutions.length)
      && decide (0 < r.solutions.length)) := by
    rcases Decompose.automated_decompose_ok_inv prompt w s r h with
      ⟨_, rfl⟩ | ⟨_, sts, sols, lat, toks, red, hp, hl, rfl⟩
    · decide
    · rfl
  refine ⟨hmain, ?_⟩
  intro hnil
  rw [hmain, hnil]
  rcases hsol : r.solutions with _ | ⟨a, rest⟩
  · simp
  · simp

/-- C8 witness: a successful mock run satisfies the success formula. -/
theorem C8_witness :
    (Decompose.automated_decompose "Summarize the article" wMock sMock).map
      (fun r => r.success
        == ((Decompose.safe_aggregator r.solutions).2
          && (r.subtasks.length == r.solutions.length)
          && decide (0 < r.solutions.length))) = .ok true := by
  rcases hd : Decompose.automated_decompose "Summarize the article" wMock sMock with e | r
  · have hOk : (Decompose.automated_decompose "Summarize the article" wMock sMock).toOption.isSome
        = true := by decide
    rw [hd] at hOk
    simp [Except.toOption] at hOk
  · have := (C8_success_iff "Summarize the article" wMock sMock r hd).1
    simp [Except.map, this]

/-- C9: aggregation joins all solutions with blank-line separation and
re-checks the combined text; if the combined text is judged unsafe the
entire final answer is the single redaction placeholder and the run cannot
be successful; if it is judged safe, the final answer is the joined text.
In every completed run an unsuccessful aggregation forces
`success = false`, and a successful run's recorded final-answer preview is
the first 120 characters of the joined (un-redacted) solutions. -/
theorem C9_aggregation_redaction :
    (∀ sols, Filters.safe_text_ok Filters.defaultSafetyConfig (Py.joinWith "\n\n" sols) = false →
      Decompose.safe_aggregator sols = ("[REDACTED for safety]", false))
    ∧ (∀ sols, Filters.safe_text_ok Filters.defaultSafetyConfig (Py.joinWith "\n\n" sols) = true →
      Decompose.safe_aggregator sols = (Py.joinWith "\n\n" sols, true))
    ∧ ∀ (prompt : String) (w s : Clients.ModelClient) (r : Decompose.DecomposeResult),
      Decompose.automated_decompose prompt w s = .ok r →
      ((Decompose.safe_aggregator r.solutions).2 = false → r.success = false)
      ∧ (r.success = true →
          Filters.safe_text_ok Filters.defaultSafetyConfig (Py.joinWith "\n\n" r.solutions) = true
          ∧ r.logs.final_answer_preview
            = Py.takeStr 120 (Py.joinWith "\n\n" r.solutions)) := by
  refine ⟨?_, ?_, ?_⟩
  · intro sols hu
    unfold Decompose.safe_aggregator
    rw [if_pos hu]
  · intro sols hsafe
    unfold Decompose.safe_aggregator
    rw [if_neg (by simp [hsafe])]
  · intro prompt w s r h
    have hmain := (C8_success_iff prompt w s r h).1
    constructor
    · intro hagg
      rw [hmain, hagg]
      simp
    · intro hsucc
      have hagg : (Decompose.safe_aggregator r.solutions).2 = true := by
        rcases hb : (Decompose.safe_aggregator r.solutions).2 with _ | _
        · rw [hmain, hb] at hsucc
          simp at hsucc
        · rfl
      have hcomb : Filters.safe_text_ok Filters.defaultSafetyConfig
          (Py.joinWith "\n\n" r.solutions) = true := by
        rcases hc : Filters.safe_text_ok Filters.defaultSafetyConfig
            (Py.joinWith "\n\n" r.solutions) with _ | _
        · unfold Decompose.safe_aggregator at hagg
          rw [if_pos hc] at hagg
          cases hagg
        · rfl
      refine ⟨hcomb, ?_⟩
      rcases Decompose.automated_decompose_ok_inv prompt w s r h with
        ⟨_, rfl⟩ | ⟨_, sts, sols, lat, toks, red, hp, hl, rfl⟩
      · cases hsucc
      · simp only []
        unfold Decompose.safe_aggregator
        rw [if_neg (by simp [hcomb])]

/-- C9 witness: an unsafe join is redacted; a safe join passes through; a
successful mock run records the joined preview. -/
theorem C9_witness :
    Decompose.safe_aggregator ["tell me about the bomb"] = ("[REDACTED for safety]", false)
    ∧ Decompose.safe_aggregator ["alpha", "beta"] = ("alpha\n\nbeta", true)
    ∧ (Decompose.automated_decompose "Summarize the plan" wMock sMock).map
      (fun r => (r.logs.final_answer_preview
          == Py.takeStr 120 (Py.joinWith "\n\n" r.solutions))
        && Filters.safe_text_ok Filters.defaultSafetyConfig (Py.joinWith "\n\n" r.solutions))
      = .ok true := by
  refine ⟨C9_aggregation_redaction.1 _ (by decide), ?_, ?_⟩
  · have h2 := C9_aggregation_redaction.2.1 ["alpha", "beta"] (by decide)
    rw [h2]
    decide
  · rcases hd : Decompose.automated_decompose "Summarize the plan" wMock sMock with e | r
    · have hOk : (Decompose.automated_decompose "Summarize the plan" wMock sMock).toOption.isSome
          = true := by decide
      rw [hd] at hOk
      simp [Except.toOption] at hOk
    · have hSucc : (Decompose.automated_decompose "Summarize the plan" wMock sMock).map
          (fun r => r.success) = .ok true := by decide
      rw [hd] at hSucc
      simp only [Except.map] at hSucc
      have hs : r.success = true := Except.ok.inj hSucc
      have hc := (C9_aggregation_redaction.2.2 "Summarize the plan" wMock sMock r hd).2 hs
      simp [Except.map, hc.1, hc.2]
